import Mathlib

/-!
The C binding surface of `unimage`: `src/headers/UnimageCBinding.h`.

The repository's only source file is a C header of function prototypes.
The development below keeps the header's text line by line, reads it with a
small line-oriented reader of C prototypes, and states the properties of the
interface on what the reader returns.
-/

namespace Unimage

/-! ## The text of the header -/

/-- The lines of `src/headers/UnimageCBinding.h`, in file order (line 1 first). -/
def headerLines : List String :=
  [ "//",
    "// From https://github.com/Klrohias/unimage-native/blob/main/src/CBinding.h ",
    "//",
    "",
    "#include <stdint.h>",
    "",
    "void* unimage_processor_create();",
    "void unimage_processor_free(void* handle);",
    "",
    "void unimage_processor_load_raw(void* handle, uint8_t* data, int32_t width, int32_t height, uint8_t format);",
    "uint8_t unimage_processor_load(void* handle, uint8_t* data, uint32_t length);",
    "int32_t unimage_processor_get_width(void* handle);",
    "int32_t unimage_processor_get_height(void* handle);",
    "uint8_t unimage_processor_get_format(void* handle);",
    "uint8_t unimage_processor_copy_to_memory(void* handle, void* buffer);",
    "uint8_t unimage_processor_resize(void* handle, int32_t width, int32_t height);",
    "const char* unimage_processor_get_error_message(void* handle);",
    "uint8_t* unimage_processor_get_buffer(void* handle);",
    "uint8_t unimage_processor_copy_from(void* handle, void* unimage);",
    "uint8_t unimage_processor_clip(void* handle, int32_t x, int32_t y, int32_t width, int32_t height);" ]

/-! ## Data model of a header -/

/-- A C type as the header writes it: an optional `const`, a base type name and
a number of `*`. -/
structure CType where
  isConst : Bool
  base : String
  pointers : Nat
deriving DecidableEq, Repr

/-- A named parameter of a prototype. -/
structure Param where
  type : CType
  name : String
deriving DecidableEq, Repr

/-- A function prototype: return type, name, parameters in order. -/
structure Decl where
  ret : CType
  name : String
  params : List Param
deriving DecidableEq, Repr

/-- A top-level item of a header. Blank lines and `//` comments are no items. -/
inductive Item where
  /-- The directive `#include <target>`. -/
  | include (target : String)
  /-- Any other preprocessor line (`#define`, `#pragma`, ...), text after `#`. -/
  | directive (text : String)
  /-- A function declaration without a body. -/
  | proto (d : Decl)
  /-- Anything else: `struct`, `typedef`, `enum`, a constant, a function body. -/
  | unknown (text : String)
deriving DecidableEq, Repr

/-- The type `void`. -/
def void : CType := ⟨false, "void", 0⟩
/-- The type `void*`. -/
def voidPtr : CType := ⟨false, "void", 1⟩
/-- The type `uint8_t`. -/
def uint8_t : CType := ⟨false, "uint8_t", 0⟩
/-- The type `uint8_t*`. -/
def uint8Ptr : CType := ⟨false, "uint8_t", 1⟩
/-- The type `int32_t`. -/
def int32_t : CType := ⟨false, "int32_t", 0⟩
/-- The type `uint32_t`. -/
def uint32_t : CType := ⟨false, "uint32_t", 0⟩
/-- The type `const char*`. -/
def constCharPtr : CType := ⟨true, "char", 1⟩

/-! ## Reading the header -/

/-- Lexical tokens of a prototype line. -/
inductive Token where
  | ident (s : String)
  | star
  | lparen
  | rparen
  | comma
  | semi
  | sym (c : Char)
deriving DecidableEq, Repr

/-- Characters of a C identifier. -/
def isIdentChar (c : Char) : Bool :=
  c.isAlphanum || c == '_'

/-- Closes the identifier being read, if any. `acc` holds it reversed. -/
def flush (acc : List Char) (out : List Token) : List Token :=
  match acc with
  | [] => out
  | _ :: _ => Token.ident (String.mk acc.reverse) :: out

/-- Tokenizer loop; `out` is built reversed. -/
def tokenizeAux : List Char → List Char → List Token → List Token
  | [], acc, out => (flush acc out).reverse
  | c :: cs, acc, out =>
    if isIdentChar c then tokenizeAux cs (c :: acc) out
    else if c.isWhitespace then tokenizeAux cs [] (flush acc out)
    else
      let t : Token :=
        if c == '*' then Token.star
        else if c == '(' then Token.lparen
        else if c == ')' then Token.rparen
        else if c == ',' then Token.comma
        else if c == ';' then Token.semi
        else Token.sym c
      tokenizeAux cs [] (t :: flush acc out)

/-- Words that cannot be a base type name or a declared name of a prototype
in the form this reader accepts. -/
def reserved : List String :=
  ["typedef", "struct", "union", "enum", "extern", "static", "inline", "const",
   "volatile", "register", "auto", "return", "sizeof", "signed", "unsigned",
   "short", "long", "if", "else", "for", "while", "do", "switch", "case",
   "default", "break", "continue", "goto"]

/-- Counts leading `*` tokens. -/
def takeStars : List Token → Nat × List Token
  | Token.star :: ts =>
    let r := takeStars ts
    (r.1 + 1, r.2)
  | ts => (0, ts)

/-- Reads `base *... name` with nothing left over. -/
def readBaseAndName (isConst : Bool) : List Token → Option (CType × String)
  | Token.ident b :: ts =>
    if reserved.contains b then none
    else
      match takeStars ts with
      | (n, [Token.ident x]) =>
        if reserved.contains x then none else some (⟨isConst, b, n⟩, x)
      | _ => none
  | _ => none

/-- Reads `[const] base *... name` with nothing left over. -/
def readTyped : List Token → Option (CType × String)
  | Token.ident "const" :: ts => readBaseAndName true ts
  | ts => readBaseAndName false ts

/-- Splits a token list at the commas. -/
def splitCommas : List Token → List (List Token)
  | [] => [[]]
  | Token.comma :: ts => [] :: splitCommas ts
  | t :: ts =>
    match splitCommas ts with
    | [] => [[t]]
    | g :: gs => (t :: g) :: gs

/-- Reads every group as a parameter, failing if one fails. -/
def readParams : List (List Token) → Option (List Param)
  | [] => some []
  | g :: gs =>
    match readTyped g, readParams gs with
    | some (t, x), some ps => some (⟨t, x⟩ :: ps)
    | _, _ => none

/-- Splits at the first `(`: what is before it, and what is after it. -/
def splitAtParen : List Token → Option (List Token × List Token)
  | [] => none
  | Token.lparen :: ts => some ([], ts)
  | t :: ts =>
    match splitAtParen ts with
    | some (a, b) => some (t :: a, b)
    | none => none

/-- Reads a prototype `type name(params);`: the tokens after the parameter
list must be exactly `)` and `;`, so a declaration followed by a body is not
accepted. -/
def readProto (ts : List Token) : Option Decl :=
  match splitAtParen ts with
  | none => none
  | some (front, rest) =>
    match rest.reverse with
    | Token.semi :: Token.rparen :: innerRev =>
      match readTyped front with
      | none => none
      | some (t, x) =>
        match innerRev.reverse with
        | [] => some ⟨t, x, []⟩
        | inner =>
          match readParams (splitCommas inner) with
          | some ps => some ⟨t, x, ps⟩
          | none => none
    | _ => none

/-- Drops leading white space. -/
def dropSpaces : List Char → List Char
  | c :: cs => if c.isWhitespace then dropSpaces cs else c :: cs
  | [] => []

/-- Reads the target of `include <target>`. -/
def readInclude (cs : List Char) : Option String :=
  match dropSpaces cs with
  | 'i' :: 'n' :: 'c' :: 'l' :: 'u' :: 'd' :: 'e' :: rest =>
    match dropSpaces rest with
    | '<' :: more =>
      match (dropSpaces more.reverse) with
      | '>' :: tgtRev => some (String.mk tgtRev.reverse)
      | _ => none
    | _ => none
  | _ => none

/-- Classifies one line: `none` for a blank line or a `//` comment. -/
def readLine (s : String) : Option Item :=
  match dropSpaces s.toList with
  | [] => none
  | '/' :: '/' :: _ => none
  | '#' :: cs =>
    match readInclude cs with
    | some t => some (Item.include t)
    | none => some (Item.directive (String.mk cs))
  | cs =>
    match readProto (tokenizeAux cs [] []) with
    | some d => some (Item.proto d)
    | none => some (Item.unknown (String.mk cs))

/-- The top-level items of a header given by its lines. -/
def readHeader (lines : List String) : List Item :=
  lines.filterMap readLine

/-- The items of `UnimageCBinding.h`. -/
def UnimageCBinding : List Item :=
  readHeader headerLines

/-- The function declarations of the header, in file order. -/
def declared : List Decl :=
  UnimageCBinding.filterMap fun i =>
    match i with
    | Item.proto d => some d
    | _ => none

/-- The items of the header that are not function prototypes. -/
def nonPrototypes : List Item :=
  UnimageCBinding.filter fun i =>
    match i with
    | Item.proto _ => false
    | _ => true

/-- The declaration of the function called `n`, if the header has one. -/
def lookup (n : String) : Option Decl :=
  declared.find? fun d => d.name == n

/-- Declaration on line 7 of the header. -/
def unimage_processor_create : Option Decl := lookup "unimage_processor_create"
/-- Declaration on line 8 of the header. -/
def unimage_processor_free : Option Decl := lookup "unimage_processor_free"
/-- Declaration on line 10 of the header. -/
def unimage_processor_load_raw : Option Decl := lookup "unimage_processor_load_raw"
/-- Declaration on line 11 of the header. -/
def unimage_processor_load : Option Decl := lookup "unimage_processor_load"
/-- Declaration on line 12 of the header. -/
def unimage_processor_get_width : Option Decl := lookup "unimage_processor_get_width"
/-- Declaration on line 13 of the header. -/
def unimage_processor_get_height : Option Decl := lookup "unimage_processor_get_height"
/-- Declaration on line 14 of the header. -/
def unimage_processor_get_format : Option Decl := lookup "unimage_processor_get_format"
/-- Declaration on line 15 of the header. -/
def unimage_processor_copy_to_memory : Option Decl := lookup "unimage_processor_copy_to_memory"
/-- Declaration on line 16 of the header. -/
def unimage_processor_resize : Option Decl := lookup "unimage_processor_resize"
/-- Declaration on line 17 of the header. -/
def unimage_processor_get_error_message : Option Decl :=
  lookup "unimage_processor_get_error_message"
/-- Declaration on line 18 of the header. -/
def unimage_processor_get_buffer : Option Decl := lookup "unimage_processor_get_buffer"
/-- Declaration on line 19 of the header. -/
def unimage_processor_copy_from : Option Decl := lookup "unimage_processor_copy_from"
/-- Declaration on line 20 of the header. -/
def unimage_processor_clip : Option Decl := lookup "unimage_processor_clip"

/-- The return type of an optional declaration. -/
def retType (d : Option Decl) : Option CType :=
  d.map fun x => x.ret

/-- All parameters of an optional declaration, in order. -/
def allParams (d : Option Decl) : Option (List Param) :=
  d.map fun x => x.params

/-- The parameters after the first one, in order. -/
def restParams (d : Option Decl) : Option (List Param) :=
  d.map fun x => x.params.drop 1

/-- The type of the parameter called `p`. -/
def paramType (d : Option Decl) (p : String) : Option CType :=
  match d with
  | none => none
  | some x => (x.params.find? fun q => q.name == p).map fun q => q.type

/-- The names of the declared functions, in file order. -/
def declaredNames : List String :=
  declared.map fun d => d.name

/-- The names of the declared functions whose return type is `uint8_t`. -/
def byteReturning : List String :=
  (declared.filter fun d => d.ret == uint8_t).map fun d => d.name

/-- Every parameter of the header, with the function it belongs to. -/
def parameters : List (String × Param) :=
  declared.flatMap fun d => d.params.map fun p => (d.name, p)

/-- Value range of the exact-width integer types of `<stdint.h>`:
least and greatest value. Other type names are no integer types here. -/
def intRange (base : String) : Option (Int × Int) :=
  if base = "int8_t" then some (-2 ^ 7, 2 ^ 7 - 1)
  else if base = "int16_t" then some (-2 ^ 15, 2 ^ 15 - 1)
  else if base = "int32_t" then some (-2 ^ 31, 2 ^ 31 - 1)
  else if base = "int64_t" then some (-2 ^ 63, 2 ^ 63 - 1)
  else if base = "uint8_t" then some (0, 2 ^ 8 - 1)
  else if base = "uint16_t" then some (0, 2 ^ 16 - 1)
  else if base = "uint32_t" then some (0, 2 ^ 32 - 1)
  else if base = "uint64_t" then some (0, 2 ^ 64 - 1)
  else none

/-- An integer type: not a pointer, and its base is an exact-width integer. -/
def CType.isInteger (t : CType) : Bool :=
  t.pointers == 0 && (intRange t.base).isSome

/-- Whether `v` is a value of the integer type `t`. -/
def CType.admits (t : CType) (v : Int) : Bool :=
  t.pointers == 0 &&
    match intRange t.base with
    | some (lo, hi) => decide (lo ≤ v) && decide (v ≤ hi)
    | none => false

/-- The integer parameters of the header. -/
def integerParams : List (String × Param) :=
  parameters.filter fun fp => fp.2.type.isInteger

/-- The parameters of type `int32_t`, as function name and parameter name. -/
def int32Params : List (String × String) :=
  (parameters.filter fun fp => fp.2.type == int32_t).map fun fp => (fp.1, fp.2.name)

/-- The function names the specification lists for the interface. -/
def specNames : List String :=
  [ "unimage_processor_create", "unimage_processor_free", "unimage_processor_load_raw",
    "unimage_processor_load", "unimage_processor_get_width", "unimage_processor_get_height",
    "unimage_processor_get_format", "unimage_processor_copy_to_memory",
    "unimage_processor_resize", "unimage_processor_get_error_message",
    "unimage_processor_get_buffer", "unimage_processor_copy_from", "unimage_processor_clip" ]

/-- The operations whose Result in the specification's component table is
"status byte": load, copy_to_memory, resize, clip, copy_from. -/
def statusOperations : List String :=
  [ "unimage_processor_load", "unimage_processor_copy_to_memory", "unimage_processor_resize",
    "unimage_processor_clip", "unimage_processor_copy_from" ]

/-- The signatures of the header written out as data, in file order. -/
def signatureTable : List Decl :=
  [ ⟨voidPtr, "unimage_processor_create", []⟩,
    ⟨void, "unimage_processor_free", [⟨voidPtr, "handle"⟩]⟩,
    ⟨void, "unimage_processor_load_raw",
      [⟨voidPtr, "handle"⟩, ⟨uint8Ptr, "data"⟩, ⟨int32_t, "width"⟩, ⟨int32_t, "height"⟩,
       ⟨uint8_t, "format"⟩]⟩,
    ⟨uint8_t, "unimage_processor_load",
      [⟨voidPtr, "handle"⟩, ⟨uint8Ptr, "data"⟩, ⟨uint32_t, "length"⟩]⟩,
    ⟨int32_t, "unimage_processor_get_width", [⟨voidPtr, "handle"⟩]⟩,
    ⟨int32_t, "unimage_processor_get_height", [⟨voidPtr, "handle"⟩]⟩,
    ⟨uint8_t, "unimage_processor_get_format", [⟨voidPtr, "handle"⟩]⟩,
    ⟨uint8_t, "unimage_processor_copy_to_memory", [⟨voidPtr, "handle"⟩, ⟨voidPtr, "buffer"⟩]⟩,
    ⟨uint8_t, "unimage_processor_resize",
      [⟨voidPtr, "handle"⟩, ⟨int32_t, "width"⟩, ⟨int32_t, "height"⟩]⟩,
    ⟨constCharPtr, "unimage_processor_get_error_message", [⟨voidPtr, "handle"⟩]⟩,
    ⟨uint8Ptr, "unimage_processor_get_buffer", [⟨voidPtr, "handle"⟩]⟩,
    ⟨uint8_t, "unimage_processor_copy_from", [⟨voidPtr, "handle"⟩, ⟨voidPtr, "unimage"⟩]⟩,
    ⟨uint8_t, "unimage_processor_clip",
      [⟨voidPtr, "handle"⟩, ⟨int32_t, "x"⟩, ⟨int32_t, "y"⟩, ⟨int32_t, "width"⟩,
       ⟨int32_t, "height"⟩]⟩ ]

/-! ## What the reader returns on the header -/

/-- The header reads as one `#include <stdint.h>` followed by the thirteen
prototypes of `signatureTable`. -/
theorem UnimageCBinding_eq :
    UnimageCBinding = Item.include "stdint.h" :: signatureTable.map Item.proto := by
  rfl

/-- The declarations read from the text are those of `signatureTable`. -/
theorem declared_eq : declared = signatureTable := by
  unfold declared
  rw [UnimageCBinding_eq]
  rfl

/-- The only item that is not a prototype is the include. -/
theorem nonPrototypes_eq : nonPrototypes = [Item.include "stdint.h"] := by
  unfold nonPrototypes
  rw [UnimageCBinding_eq]
  rfl

/-- Looking a name up in the header is looking it up in `signatureTable`. -/
theorem lookup_eq (n : String) :
    lookup n = signatureTable.find? fun d => d.name == n := by
  unfold lookup
  rw [declared_eq]

theorem declaredNames_eq : declaredNames = specNames := by
  unfold declaredNames
  rw [declared_eq]
  rfl

theorem byteReturning_eq :
    byteReturning =
      [ "unimage_processor_load", "unimage_processor_get_format",
        "unimage_processor_copy_to_memory", "unimage_processor_resize",
        "unimage_processor_copy_from", "unimage_processor_clip" ] := by
  unfold byteReturning
  rw [declared_eq]
  decide

theorem parameters_eq :
    parameters = signatureTable.flatMap fun d => d.params.map fun p => (d.name, p) := by
  unfold parameters
  rw [declared_eq]

theorem integerParams_eq :
    integerParams =
      [ ("unimage_processor_load_raw", ⟨int32_t, "width"⟩),
        ("unimage_processor_load_raw", ⟨int32_t, "height"⟩),
        ("unimage_processor_load_raw", ⟨uint8_t, "format"⟩),
        ("unimage_processor_load", ⟨uint32_t, "length"⟩),
        ("unimage_processor_resize", ⟨int32_t, "width"⟩),
        ("unimage_processor_resize", ⟨int32_t, "height"⟩),
        ("unimage_processor_clip", ⟨int32_t, "x"⟩),
        ("unimage_processor_clip", ⟨int32_t, "y"⟩),
        ("unimage_processor_clip", ⟨int32_t, "width"⟩),
        ("unimage_processor_clip", ⟨int32_t, "height"⟩) ] := by
  unfold integerParams
  rw [parameters_eq]
  decide

theorem int32Params_eq :
    int32Params =
      [ ("unimage_processor_load_raw", "width"), ("unimage_processor_load_raw", "height"),
        ("unimage_processor_resize", "width"), ("unimage_processor_resize", "height"),
        ("unimage_processor_clip", "x"), ("unimage_processor_clip", "y"),
        ("unimage_processor_clip", "width"), ("unimage_processor_clip", "height") ] := by
  unfold int32Params
  rw [parameters_eq]
  decide

/-- The values of `uint8_t` are 0 to 255. -/
theorem admits_uint8_t (v : Int) : uint8_t.admits v = true ↔ 0 ≤ v ∧ v ≤ 255 := by
  simp [CType.admits, uint8_t, intRange]

/-- The values of `int32_t` are -2^31 to 2^31 - 1. -/
theorem admits_int32_t (v : Int) :
    int32_t.admits v = true ↔ -2147483648 ≤ v ∧ v ≤ 2147483647 := by
  simp [CType.admits, int32_t, intRange]

/-! ## The reader on text that is not a prototype -/

theorem readLine_typedef :
    readLine "typedef uint8_t unimage_format;" =
      some (Item.unknown "typedef uint8_t unimage_format;") := by
  rfl

theorem readLine_define :
    readLine "#define UNIMAGE_FORMAT_RGB 1" =
      some (Item.directive "define UNIMAGE_FORMAT_RGB 1") := by
  rfl

theorem readLine_body :
    readLine "int32_t unimage_processor_get_width(void* handle) \x7b return 0; \x7d" =
      some (Item.unknown "int32_t unimage_processor_get_width(void* handle) \x7b return 0; \x7d") := by
  rfl

theorem readLine_enum :
    readLine "enum unimage_format \x7b RGB, RGBA \x7d;" =
      some (Item.unknown "enum unimage_format \x7b RGB, RGBA \x7d;") := by
  rfl

theorem readLine_struct :
    readLine "struct unimage_processor;" = some (Item.unknown "struct unimage_processor;") := by
  rfl

theorem readLine_constant :
    readLine "static const uint8_t UNIMAGE_OK = 1;" =
      some (Item.unknown "static const uint8_t UNIMAGE_OK = 1;") := by
  rfl

/-! ## The claims -/

/-- Claim C1: the names of the functions declared in the header are exactly the
thirteen names the specification lists: every listed name is declared, no
other function is declared, and no name is declared twice. -/
theorem C1_declared_names_exact :
    (∀ n : String, n ∈ declaredNames ↔ n ∈ specNames) ∧
      declaredNames.Nodup ∧ declaredNames.length = 13 ∧ specNames.length = 13 := by
  rw [declaredNames_eq]
  exact ⟨fun _ => Iff.rfl, by decide, by decide, by decide⟩

/-- Claim C2: the return type of every declared operation is the one the Result
column of the component table gives: `void*` for create, `void` for free and
load_raw, `uint8_t` for load, copy_to_memory, resize, clip, copy_from and
get_format, `int32_t` for get_width and get_height, `const char*` for
get_error_message and `uint8_t*` for get_buffer. -/
theorem C2_return_types :
    retType unimage_processor_create = some voidPtr ∧
      retType unimage_processor_free = some void ∧
      retType unimage_processor_load_raw = some void ∧
      retType unimage_processor_load = some uint8_t ∧
      retType unimage_processor_copy_to_memory = some uint8_t ∧
      retType unimage_processor_resize = some uint8_t ∧
      retType unimage_processor_clip = some uint8_t ∧
      retType unimage_processor_copy_from = some uint8_t ∧
      retType unimage_processor_get_width = some int32_t ∧
      retType unimage_processor_get_height = some int32_t ∧
      retType unimage_processor_get_format = some uint8_t ∧
      retType unimage_processor_get_error_message = some constCharPtr ∧
      retType unimage_processor_get_buffer = some uint8Ptr := by
  simp only [unimage_processor_create, unimage_processor_free, unimage_processor_load_raw,
    unimage_processor_load, unimage_processor_copy_to_memory, unimage_processor_resize,
    unimage_processor_clip, unimage_processor_copy_from, unimage_processor_get_width,
    unimage_processor_get_height, unimage_processor_get_format,
    unimage_processor_get_error_message, unimage_processor_get_buffer, lookup_eq]
  decide

/-- Claim C3, refuted as stated: the declared functions returning `uint8_t` are
not exactly the status-byte operations, because `unimage_processor_get_format`
returns `uint8_t` and is not one of them. -/
theorem C3_counterexample_get_format :
    ¬ (∀ n : String, n ∈ byteReturning ↔ n ∈ statusOperations) := by
  intro h
  have h1 : "unimage_processor_get_format" ∈ byteReturning := by
    rw [byteReturning_eq]
    decide
  exact absurd ((h "unimage_processor_get_format").mp h1) (by decide)

/-- Claim C3, amended: the declared functions returning `uint8_t` are exactly the
five status-byte operations (load, copy_to_memory, resize, clip, copy_from)
together with `unimage_processor_get_format`, whose byte is a format code. -/
theorem C3_byte_returning_exact :
    (∀ n : String, n ∈ byteReturning ↔
        (n ∈ statusOperations ∨ n = "unimage_processor_get_format")) ∧
      "unimage_processor_get_format" ∉ statusOperations ∧
      retType unimage_processor_get_format = some uint8_t := by
  refine ⟨fun n => ?_, by decide, ?_⟩
  · rw [byteReturning_eq]
    simp only [statusOperations, List.mem_cons, List.mem_singleton, List.not_mem_nil,
      or_false]
    tauto
  · simp only [unimage_processor_get_format, lookup_eq]
    decide

/-- Claim C4: every declared function other than `unimage_processor_create` has
the handle, of type `void*`, as its first parameter; `unimage_processor_create`
is declared with an empty parameter list and returns `void*`, the type of that
handle parameter. -/
theorem C4_handle_first :
    (∀ d : Decl, d ∈ declared → d.name ≠ "unimage_processor_create" →
        d.params.head? = some ⟨voidPtr, "handle"⟩) ∧
      allParams unimage_processor_create = some [] ∧
      retType unimage_processor_create = some voidPtr := by
  refine ⟨?_, ?_, ?_⟩
  · rw [declared_eq]
    decide
  · simp only [unimage_processor_create, lookup_eq]
    decide
  · simp only [unimage_processor_create, lookup_eq]
    decide

/-- Claim C4 at the declaration of `unimage_processor_free`. -/
theorem C4_handle_first_witness :
    (⟨void, "unimage_processor_free", [⟨voidPtr, "handle"⟩]⟩ : Decl) ∈ declared ∧
      (⟨void, "unimage_processor_free", [⟨voidPtr, "handle"⟩]⟩ : Decl).params.head? =
        some ⟨voidPtr, "handle"⟩ :=
  ⟨by rw [declared_eq]; decide,
    C4_handle_first.1 ⟨void, "unimage_processor_free", [⟨voidPtr, "handle"⟩]⟩
      (by rw [declared_eq]; decide) (by decide)⟩

/-- Claim C5: the parameters after the handle are, in number, order, type and
name: load_raw (uint8_t* data, int32_t width, int32_t height, uint8_t format);
load (uint8_t* data, uint32_t length); copy_to_memory (void* buffer); resize
(int32_t width, int32_t height); clip (int32_t x, int32_t y, int32_t width,
int32_t height); copy_from one `void*`; none for free, get_width, get_height,
get_format, get_error_message and get_buffer. -/
theorem C5_parameters_after_handle :
    restParams unimage_processor_load_raw =
        some [⟨uint8Ptr, "data"⟩, ⟨int32_t, "width"⟩, ⟨int32_t, "height"⟩,
          ⟨uint8_t, "format"⟩] ∧
      restParams unimage_processor_load = some [⟨uint8Ptr, "data"⟩, ⟨uint32_t, "length"⟩] ∧
      restParams unimage_processor_copy_to_memory = some [⟨voidPtr, "buffer"⟩] ∧
      restParams unimage_processor_resize = some [⟨int32_t, "width"⟩, ⟨int32_t, "height"⟩] ∧
      restParams unimage_processor_clip =
        some [⟨int32_t, "x"⟩, ⟨int32_t, "y"⟩, ⟨int32_t, "width"⟩, ⟨int32_t, "height"⟩] ∧
      (restParams unimage_processor_copy_from).map (List.map fun p => p.type) =
        some [voidPtr] ∧
      restParams unimage_processor_free = some [] ∧
      restParams unimage_processor_get_width = some [] ∧
      restParams unimage_processor_get_height = some [] ∧
      restParams unimage_processor_get_format = some [] ∧
      restParams unimage_processor_get_error_message = some [] ∧
      restParams unimage_processor_get_buffer = some [] := by
  simp only [unimage_processor_free, unimage_processor_load_raw,
    unimage_processor_load, unimage_processor_copy_to_memory, unimage_processor_resize,
    unimage_processor_clip, unimage_processor_copy_from, unimage_processor_get_width,
    unimage_processor_get_height, unimage_processor_get_format,
    unimage_processor_get_error_message, unimage_processor_get_buffer, lookup_eq]
  decide

/-- Claim C6: a format code is one byte in both places it occurs: the return type
of `unimage_processor_get_format` and the type of the `format` parameter of
`unimage_processor_load_raw` are both `uint8_t`, whose values are 0 to 255, so
every value of the former type is a value of the latter. -/
theorem C6_format_code_is_byte :
    retType unimage_processor_get_format = some uint8_t ∧
      paramType unimage_processor_load_raw "format" = some uint8_t ∧
      (∀ v : Int, uint8_t.admits v = true ↔ 0 ≤ v ∧ v ≤ 255) ∧
      (∀ (r p : CType) (v : Int), retType unimage_processor_get_format = some r →
        paramType unimage_processor_load_raw "format" = some p →
        r.admits v = true → p.admits v = true) := by
  have h1 : retType unimage_processor_get_format = some uint8_t := by
    simp only [unimage_processor_get_format, lookup_eq]
    decide
  have h2 : paramType unimage_processor_load_raw "format" = some uint8_t := by
    simp only [unimage_processor_load_raw, lookup_eq]
    decide
  refine ⟨h1, h2, admits_uint8_t, ?_⟩
  intro r p v hr hp hv
  rw [h1] at hr
  rw [h2] at hp
  cases hr
  cases hp
  exact hv

/-- Claim C6 at the format code 3: `uint8_t` is the return type of get_format
and the type of load_raw's `format`, and 3 is a value of it. -/
theorem C6_format_code_is_byte_witness :
    retType unimage_processor_get_format = some uint8_t ∧
      paramType unimage_processor_load_raw "format" = some uint8_t ∧
      uint8_t.admits 3 = true :=
  ⟨C6_format_code_is_byte.1, C6_format_code_is_byte.2.1,
    C6_format_code_is_byte.2.2.2 uint8_t uint8_t 3 C6_format_code_is_byte.1
      C6_format_code_is_byte.2.1 (by decide)⟩

/-- Claim C7: apart from the single `#include <stdint.h>`, every top-level item
of the header is a function prototype without a body: the header is that
include followed by its thirteen declarations, and it has no other directive
(no macro) and no other item (no struct, typedef, enum or constant). -/
theorem C7_only_prototypes :
    nonPrototypes = [Item.include "stdint.h"] ∧
      UnimageCBinding = Item.include "stdint.h" :: declared.map Item.proto ∧
      declared.length = 13 := by
  refine ⟨nonPrototypes_eq, ?_, ?_⟩
  · rw [declared_eq]
    exact UnimageCBinding_eq
  · rw [declared_eq]
    decide

/-- Claim C8, refuted as stated: `length` of `unimage_processor_load` is not the
only integer parameter of a type other than `int32_t`; the `format` parameter
of `unimage_processor_load_raw` is an integer parameter of type `uint8_t`. -/
theorem C8_counterexample_format_parameter :
    ¬ (∀ fp : String × Param, fp ∈ integerParams → fp.2.type ≠ int32_t →
        fp = ("unimage_processor_load", ⟨uint32_t, "length"⟩)) := by
  intro h
  have h1 : ("unimage_processor_load_raw", (⟨uint8_t, "format"⟩ : Param)) ∈ integerParams := by
    rw [integerParams_eq]
    decide
  exact absurd (h _ h1 (by decide)) (by decide)

/-- Claim C8, amended: `unimage_processor_get_width` and
`unimage_processor_get_height` return `int32_t`; the `int32_t` parameters are
exactly the width, height, x and y parameters of load_raw, resize and clip, so
every value returned by a dimension getter is a value of each width and height
parameter; the other integer parameters are `format` of load_raw, of type
`uint8_t`, and `length` of load, of type `uint32_t`. -/
theorem C8_dimensions_int32 :
    retType unimage_processor_get_width = some int32_t ∧
      retType unimage_processor_get_height = some int32_t ∧
      int32Params =
        [ ("unimage_processor_load_raw", "width"), ("unimage_processor_load_raw", "height"),
          ("unimage_processor_resize", "width"), ("unimage_processor_resize", "height"),
          ("unimage_processor_clip", "x"), ("unimage_processor_clip", "y"),
          ("unimage_processor_clip", "width"), ("unimage_processor_clip", "height") ] ∧
      (∀ fp : String × Param, fp ∈ parameters → fp.2.name ∈ ["width", "height", "x", "y"] →
        fp.2.type = int32_t) ∧
      (∀ (r : CType) (fp : String × Param) (v : Int),
        (retType unimage_processor_get_width = some r ∨
          retType unimage_processor_get_height = some r) →
        fp ∈ parameters → fp.2.name ∈ ["width", "height"] →
        r.admits v = true → fp.2.type.admits v = true) ∧
      (integerParams.filter fun fp => fp.2.type != int32_t) =
        [ ("unimage_processor_load_raw", ⟨uint8_t, "format"⟩),
          ("unimage_processor_load", ⟨uint32_t, "length"⟩) ] := by
  have hw : retType unimage_processor_get_width = some int32_t := by
    simp only [unimage_processor_get_width, lookup_eq]
    decide
  have hh : retType unimage_processor_get_height = some int32_t := by
    simp only [unimage_processor_get_height, lookup_eq]
    decide
  have hp : ∀ fp : String × Param, fp ∈ parameters →
      fp.2.name ∈ ["width", "height", "x", "y"] → fp.2.type = int32_t := by
    rw [parameters_eq]
    decide
  refine ⟨hw, hh, int32Params_eq, hp, ?_, ?_⟩
  · intro r fp v hr hmem hname hv
    have hr2 : r = int32_t := by
      rcases hr with hr | hr
      · rw [hw] at hr
        exact (Option.some.inj hr).symm
      · rw [hh] at hr
        exact (Option.some.inj hr).symm
    have ht : fp.2.type = int32_t := by
      apply hp fp hmem
      simp only [List.mem_cons, List.mem_singleton, List.not_mem_nil, or_false] at hname ⊢
      tauto
    rw [ht, ← hr2]
    exact hv
  · rw [integerParams_eq]
    decide

/-- Claim C8 at the `width` parameter of `unimage_processor_resize` and the
value 640. -/
theorem C8_dimensions_int32_witness :
    ("unimage_processor_resize", (⟨int32_t, "width"⟩ : Param)) ∈ parameters ∧
      int32_t.admits 640 = true :=
  ⟨by rw [parameters_eq]; decide,
    C8_dimensions_int32.2.2.2.2.1 int32_t ("unimage_processor_resize", ⟨int32_t, "width"⟩) 640
      (Or.inl C8_dimensions_int32.1) (by rw [parameters_eq]; decide) (by decide) (by decide)⟩

end Unimage
